import Mathlib

/-!
Verification of the investment-screening criteria engine.

The engine (src/backend/evaluator.py, src/backend/utils/helpers.py,
src/investment_screening/config/settings.py) is embedded shallowly:
analysis texts are `String`s, keyword tests are substring scans over the
lowercased character list, and the regex extractors are modelled by
direct left-to-right scanners reproducing Python `re.findall` semantics
for the concrete patterns used by the code.  Decimal literals extracted
from the text are modelled as exact rationals (`Rat`); the decimal
values and thresholds compared by the engine (4.0, 5.0, 7.9, 15.0) are
compared exactly, as the spec's boundary tables do.
-/

namespace Screening

/-! ## Character-level utilities -/

/-- Lowercasing, modelling Python `str.lower()` on ASCII text. -/
def lowerChars (cs : List Char) : List Char := cs.map Char.toLower

/-- `needle` occurs at the head of `hay` (Python `str.startswith`). -/
def headMatches : List Char → List Char → Bool
  | _, [] => true
  | [], _ :: _ => false
  | c :: cs, d :: ds => c == d && headMatches cs ds

/-- `needle` occurs somewhere in `hay` (Python `needle in hay` on strings). -/
def containsSub : List Char → List Char → Bool
  | [], needle => needle.isEmpty
  | c :: rest, needle => headMatches (c :: rest) needle || containsSub rest needle

/-- `check_keywords_present` (utils/helpers.py): any keyword occurs,
case-insensitively, in the text. -/
def check_keywords_present (analysis_text : String) (keywords : List String) : Bool :=
  keywords.any fun k => containsSub (lowerChars analysis_text.toList) (lowerChars k.toList)

/-- `check_all_keywords_present` (utils/helpers.py). -/
def check_all_keywords_present (analysis_text : String) (keywords : List String) : Bool :=
  keywords.all fun k => containsSub (lowerChars analysis_text.toList) (lowerChars k.toList)

/-! ## Number scanning, modelling the `re` patterns of utils/helpers.py -/

/-- The characters matched by the regex class `\s` (ASCII part). -/
def isSpaceChar (c : Char) : Bool :=
  c == ' ' || c == '\t' || c == '\n' || c == '\r' || c == '\x0b' || c == '\x0c'

/-- Value of a digit string (Python `int` on a `\d+` capture). -/
def digitsToNat (cs : List Char) : Nat :=
  cs.foldl (fun acc c => acc * 10 + (c.toNat - 48)) 0

/-- Value of a `\d+(?:\.\d+)?` capture (Python `float` on the capture),
as an exact rational: `"a.b"` denotes `(a·10^|b| + b) / 10^|b|`, which is
the decimal value `a + b/10^|b|`.  (Stated with `mkRat` over natural
arithmetic so that the kernel can evaluate it on concrete inputs.) -/
def parseDecimal (cs : List Char) : Rat :=
  let p := cs.span (fun c => c != '.')
  match p.2 with
  | '.' :: fp =>
    mkRat (digitsToNat p.1 * 10 ^ fp.length + digitsToNat fp) (10 ^ fp.length)
  | _ => mkRat (digitsToNat p.1) 1

/-- Candidate matches of `\d+(?:\.\d+)?` at the head of `cs`, in regex
backtracking order: the greedy match including the fractional part first,
then the match of the integer part alone.  (Shorter matches of either
`\d+` leave a digit as the next character, which none of the regex tails
used by the code — `\s*%`, `\s*m`, `\s*week` — can consume, so they are
never relevant and are omitted.)  Each candidate is the captured group
paired with the unconsumed remainder. -/
def numCandidates (cs : List Char) : List (List Char × List Char) :=
  let p := cs.span Char.isDigit
  if p.1.isEmpty then []
  else
    match p.2 with
    | '.' :: r2 =>
      let q := r2.span Char.isDigit
      if q.1.isEmpty then [(p.1, p.2)]
      else [(p.1 ++ '.' :: q.1, q.2), (p.1, p.2)]
    | _ => [(p.1, p.2)]

/-- Match `(\d+(?:\.\d+)?)\s*%` at the head of `cs`: the captured number
and the remainder after the `%`. -/
def matchPercentAt (cs : List Char) : Option (List Char × List Char) :=
  (numCandidates cs).findSome? fun pr =>
    match pr.2.dropWhile isSpaceChar with
    | '%' :: rest => some (pr.1, rest)
    | _ => none

/-- All captures of `re.findall(r'(\d+(?:\.\d+)?)\s*%', text)` in order:
leftmost matches, resuming after each match (non-overlapping).  Fuel is
the length of the text; every step consumes at least one character. -/
def percentMatchesAux : Nat → List Char → List (List Char)
  | 0, _ => []
  | _, [] => []
  | fuel + 1, c :: rest =>
    match matchPercentAt (c :: rest) with
    | some pr => pr.1 :: percentMatchesAux fuel pr.2
    | none => percentMatchesAux fuel rest

def percentMatches (cs : List Char) : List (List Char) :=
  percentMatchesAux cs.length cs

/-- The loop body of `extract_yield_percentage`: first match whose value
is strictly greater than 1, else `0.0`. -/
def firstYieldAboveOne : List (List Char) → Rat
  | [] => 0
  | m :: ms =>
    let v := parseDecimal m
    if 1 < v then v else firstYieldAboveOne ms

/-- `extract_yield_percentage` (utils/helpers.py): scans `(\d+(?:\.\d+)?)\s*%`
over the original (case-preserved) text and returns the first value
strictly greater than 1, else `0.0`. -/
def extract_yield_percentage (analysis_text : String) : Rat :=
  firstYieldAboveOne (percentMatches analysis_text.toList)

/-- Match `\$(\d+(?:\.\d+)?)\s*m` at the head of `cs`: the captured number. -/
def matchAmountAt (cs : List Char) : Option (List Char) :=
  match cs with
  | '$' :: r =>
    (numCandidates r).findSome? fun pr =>
      match pr.2.dropWhile isSpaceChar with
      | 'm' :: _ => some pr.1
      | _ => none
  | _ => none

/-- Leftmost match of the investment-amount pattern. -/
def firstAmount : List Char → Option (List Char)
  | [] => none
  | c :: rest =>
    match matchAmountAt (c :: rest) with
    | some cap => some cap
    | none => firstAmount rest

/-- `extract_investment_amount` (utils/helpers.py): first
`re.findall(r'\$(\d+(?:\.\d+)?)\s*m', text.lower())` capture as a number
in millions, `0.0` when absent. -/
def extract_investment_amount (analysis_text : String) : Rat :=
  match firstAmount (lowerChars analysis_text.toList) with
  | some cap => parseDecimal cap
  | none => 0

/-- Match `(\d+)\s*week` at the head of `cs`: the captured digits. -/
def matchWeeksAt (cs : List Char) : Option (List Char) :=
  let p := cs.span Char.isDigit
  if p.1.isEmpty then none
  else if headMatches (p.2.dropWhile isSpaceChar) ['w', 'e', 'e', 'k'] then some p.1
  else none

/-- Leftmost match of the timeline pattern. -/
def firstWeeks : List Char → Option (List Char)
  | [] => none
  | c :: rest =>
    match matchWeeksAt (c :: rest) with
    | some cap => some cap
    | none => firstWeeks rest

/-- `extract_timeline_weeks` (utils/helpers.py): first
`re.findall(r'(\d+)\s*week', text.lower())` capture as an integer, `0`
when absent. -/
def extract_timeline_weeks (analysis_text : String) : Nat :=
  match firstWeeks (lowerChars analysis_text.toList) with
  | some cap => digitsToNat cap
  | none => 0

/-- The non-greedy `.*?(\d+(?:\.\d+)?)\s*%` tail of the IRR pattern:
starting from `cs`, the earliest position at which the number-percent
pattern matches, without `.` crossing a newline. -/
def irrTail : List Char → Option (List Char)
  | [] => none
  | c :: rest =>
    match matchPercentAt (c :: rest) with
    | some pr => some pr.1
    | none => if c == '\n' then none else irrTail rest

/-- Leftmost match of `irr.*?(\d+(?:\.\d+)?)\s*%`. -/
def firstIrr : List Char → Option (List Char)
  | [] => none
  | c :: rest =>
    if headMatches (c :: rest) ['i', 'r', 'r'] then
      match irrTail ((c :: rest).drop 3) with
      | some cap => some cap
      | none => firstIrr rest
    else firstIrr rest

/-- `extract_irr_percentage` (utils/helpers.py): first
`re.findall(r'irr.*?(\d+(?:\.\d+)?)\s*%', text.lower())` capture as a
number, `0.0` when absent. -/
def extract_irr_percentage (analysis_text : String) : Rat :=
  match firstIrr (lowerChars analysis_text.toList) with
  | some cap => parseDecimal cap
  | none => 0

/-! ## Settings (config/settings.py) -/

def MIN_INVESTMENT_SIZE : Rat := 5
/-- `7.9` (million USD), as the exact rational 79/10. -/
def PREFERRED_INVESTMENT_SIZE : Rat := mkRat 79 10
def MIN_IRR_THRESHOLD : Rat := 15
def MIN_DIVIDEND_YIELD : Rat := 4
def MIN_TIMELINE_WEEKS : Nat := 8
def MIN_KGI_TIMELINE_WEEKS : Nat := 3

def TARGET_SECTORS : List String :=
  ["healthcare", "education", "data economy", "energy transition", "industrials"]

def EXCLUDED_SECTORS : List String :=
  ["consumer", "traditional infrastructure"]

def FUND_TYPES : List String :=
  ["venture fund", "pe fund", "hedge fund", "fund investment", "pooled investment"]

/-- `EvaluationStatus` (config/settings.py). -/
inductive EvaluationStatus : Type
  | MET
  | NOT_MET
deriving DecidableEq

/-- `STATUS_COLORS` (config/settings.py). -/
def statusColor : EvaluationStatus → String
  | .MET => "🟢"
  | .NOT_MET => "🔴"

/-- The evaluation-result dictionary built by `create_evaluation_result`
(utils/helpers.py): status, explanation and display color. -/
structure EvaluationResult : Type where
  status : EvaluationStatus
  explanation : String
  color : String
deriving DecidableEq

def create_evaluation_result (status : EvaluationStatus) (explanation : String) :
    EvaluationResult :=
  ⟨status, explanation, statusColor status⟩

/-! ## Number formatting for explanation strings

The Python code interpolates floats into f-strings; for the decimal
values the engine produces (thresholds and extracted decimals), Python's
float repr is the shortest decimal form with at least one fractional
digit.  `floatRepr` renders exactly that for rationals whose denominator
divides a power of ten. -/

/-- Number of decimal digits needed after the point: the least `k` with
`den ∣ 10^k` (0 for integers), searched by fuel. -/
def fracDigitsAux : Nat → Nat → Nat → Nat
  | 0, _, _ => 0
  | n + 1, pow10, den => if pow10 % den = 0 then 0 else 1 + fracDigitsAux n (pow10 * 10) den

/-- Render a nonnegative decimal rational the way Python's f-string
renders the corresponding float, e.g. `5 ↦ "5.0"`, `499/100 ↦ "4.99"`. -/
def floatRepr (q : Rat) : String :=
  let k := fracDigitsAux 30 1 q.den
  if k = 0 then toString q.num ++ ".0"
  else
    let s := toString (q.num.toNat * (10 ^ k / q.den))
    let s := String.mk (List.replicate (k + 1 - s.length) '0') ++ s
    s.take (s.length - k) ++ "." ++ s.drop (s.length - k)

/-- `format_currency` (utils/helpers.py). -/
def format_currency (amount : Rat) : String :=
  if amount ≥ 1 then "$" ++ floatRepr amount ++ "m"
  else if amount > 0 then "$" ++ floatRepr (amount * 1000) ++ "k"
  else "Not specified"

/-- `format_percentage` (utils/helpers.py). -/
def format_percentage (percentage : Rat) : String :=
  if percentage > 0 then floatRepr percentage ++ "%"
  else "Not specified"

/-- Python `str.title()` for ASCII text: uppercase the first letter of
every alphabetic run, lowercase the rest. -/
def titleAux : Bool → List Char → List Char
  | _, [] => []
  | prevAlpha, c :: rest =>
    if c.isAlpha then
      (if prevAlpha then c.toLower else c.toUpper) :: titleAux true rest
    else c :: titleAux false rest

def pyTitle (s : String) : String := String.mk (titleAux false s.toList)

/-! ## Criterion 1: Geography/Structure (evaluator.py) -/

def _check_gcc_jv_opportunity (analysis_text : String) : Bool :=
  check_keywords_present analysis_text ["gcc"] &&
  check_keywords_present analysis_text ["joint venture", "jv"] &&
  check_keywords_present analysis_text ["expansion", "partner", "business model", "proven"]

def _check_dividend_opportunity (analysis_text : String) : Bool :=
  if check_keywords_present analysis_text ["dividend"] then
    extract_yield_percentage analysis_text > MIN_DIVIDEND_YIELD
  else false

def _check_kgi_opportunity (analysis_text : String) : Bool :=
  check_keywords_present analysis_text ["kgi"] &&
  check_keywords_present analysis_text ["co-investment", "participation"]

def evaluate_geography_structure (analysis_text : String) : EvaluationResult :=
  if _check_gcc_jv_opportunity analysis_text then
    create_evaluation_result .MET
      "GCC JV opportunity identified with expansion plans and partner structure"
  else if _check_dividend_opportunity analysis_text then
    create_evaluation_result .MET
      ("Dividend-paying investment with yield greater than "
        ++ floatRepr MIN_DIVIDEND_YIELD ++ "%")
  else if _check_kgi_opportunity analysis_text then
    create_evaluation_result .MET "KGI co-investment opportunity identified"
  else
    create_evaluation_result .NOT_MET
      ("Does not meet any of the three required categories: GCC JV, dividend-paying (>"
        ++ floatRepr MIN_DIVIDEND_YIELD ++ "%), or KGI co-investment")

/-! ## Criterion 2: Financial Milestones (evaluator.py) -/

def _check_new_jv (analysis_text : String) : Bool :=
  check_keywords_present analysis_text ["new"] &&
  check_keywords_present analysis_text ["joint venture", "jv"]

def _check_ebitda_positive (analysis_text : String) : Bool :=
  check_keywords_present analysis_text ["ebitda positive", "positive ebitda"]

def _check_timeline_within_year (analysis_text : String) : Bool :=
  check_keywords_present analysis_text ["within one year", "12 months", "less than a year"]

def _check_additional_funding_needed (analysis_text : String) : Bool :=
  check_keywords_present analysis_text
    ["additional funding", "more funding", "next round", "series"]

def evaluate_financial_milestones (analysis_text : String) : EvaluationResult :=
  if _check_new_jv analysis_text then
    create_evaluation_result .MET "Not applicable - New JV"
  else if _check_ebitda_positive analysis_text then
    create_evaluation_result .MET "Company is already EBITDA positive"
  else if _check_timeline_within_year analysis_text &&
      !_check_additional_funding_needed analysis_text then
    create_evaluation_result .MET
      "Timeline to positive EBITDA is within one year with current funding"
  else
    create_evaluation_result .NOT_MET
      "Timeline exceeds one year or additional funding rounds needed before profitability"

/-! ## Criterion 3: Asset Class Exclusion (evaluator.py) -/

def _check_fund_investment (analysis_text : String) : Bool :=
  check_keywords_present analysis_text FUND_TYPES

def _check_direct_investment (analysis_text : String) : Bool :=
  check_keywords_present analysis_text ["company", "business", "startup", "direct investment"]

def evaluate_asset_class_exclusion (analysis_text : String) : EvaluationResult :=
  if _check_fund_investment analysis_text then
    create_evaluation_result .NOT_MET
      "Fund investment identified - excluded due to team bandwidth and 2025 objectives"
  else if _check_direct_investment analysis_text then
    create_evaluation_result .MET "Direct company investment identified"
  else
    create_evaluation_result .NOT_MET "Asset class information unclear or absent"

/-! ## Criterion 4: Investor Syndication (evaluator.py) -/

def _check_lead_investor (analysis_text : String) : Bool :=
  check_keywords_present analysis_text ["lead investor"]

def evaluate_investor_syndication (analysis_text : String) : EvaluationResult :=
  if _check_lead_investor analysis_text then
    create_evaluation_result .MET "Lead investor identified in syndicate"
  else
    create_evaluation_result .MET
      "No lead investor identified - not a rejection criterion per Kanoo Ventures policy"

/-! ## Criterion 5: Fee Terms (evaluator.py) -/

def _check_no_management_fees (analysis_text : String) : Bool :=
  check_keywords_present analysis_text ["no management fee", "no direct management fee"]

def _check_management_fees_present (analysis_text : String) : Bool :=
  check_keywords_present analysis_text ["management fee"] &&
  !_check_no_management_fees analysis_text

def evaluate_fee_terms (analysis_text : String) : EvaluationResult :=
  if _check_no_management_fees analysis_text then
    create_evaluation_result .MET "No direct management fees that would impact KV P&L"
  else if _check_management_fees_present analysis_text then
    create_evaluation_result .NOT_MET "Management fees present that would hit KV P&L"
  else
    create_evaluation_result .NOT_MET
      "Fee information not mentioned - missing information counts as red"

/-! ## Criterion 6: Investment Size (evaluator.py) -/

def evaluate_investment_size (analysis_text : String) : EvaluationResult :=
  let investment_amount := extract_investment_amount analysis_text
  if investment_amount ≥ PREFERRED_INVESTMENT_SIZE then
    create_evaluation_result .MET
      ("Investment size " ++ format_currency investment_amount
        ++ " meets preferred threshold with strong preference noted")
  else if investment_amount ≥ MIN_INVESTMENT_SIZE then
    create_evaluation_result .MET
      ("Investment size " ++ format_currency investment_amount
        ++ " meets minimum threshold with note about preference for larger tickets")
  else if investment_amount > 0 ∧ investment_amount < MIN_INVESTMENT_SIZE then
    create_evaluation_result .NOT_MET
      ("Investment size " ++ format_currency investment_amount
        ++ " below $" ++ floatRepr MIN_INVESTMENT_SIZE
        ++ "m minimum - portfolio management concerns about too many small deals")
  else
    create_evaluation_result .NOT_MET "Investment size not specified"

/-! ## Criterion 7: Process Timeline (evaluator.py) -/

def _check_kgi_coinvestment (analysis_text : String) : Bool :=
  check_keywords_present analysis_text ["kgi"] &&
  check_keywords_present analysis_text ["co-investment", "participation"]

def evaluate_process_timeline (analysis_text : String) : EvaluationResult :=
  let timeline_weeks := extract_timeline_weeks analysis_text
  if _check_kgi_coinvestment analysis_text ∧ timeline_weeks ≥ MIN_KGI_TIMELINE_WEEKS then
    create_evaluation_result .MET
      ("KGI co-investment with " ++ toString timeline_weeks
        ++ " week timeline meets lighter diligence requirements")
  else if timeline_weeks ≥ MIN_TIMELINE_WEEKS then
    create_evaluation_result .MET
      ("Timeline of " ++ toString timeline_weeks
        ++ " weeks meets standard deal requirements")
  else if timeline_weeks > 0 then
    create_evaluation_result .NOT_MET
      ("Timeline of " ++ toString timeline_weeks
        ++ " weeks too short - risk of reduced diligence quality")
  else
    create_evaluation_result .NOT_MET "Timeline information absent"

/-! ## Criterion 8: Return Threshold (evaluator.py) -/

def _check_low_risk (analysis_text : String) : Bool :=
  check_keywords_present analysis_text ["low risk", "low-risk"]

def evaluate_return_threshold (analysis_text : String) : EvaluationResult :=
  let irr_percentage := extract_irr_percentage analysis_text
  let low_risk_mentioned := _check_low_risk analysis_text
  if irr_percentage ≥ MIN_IRR_THRESHOLD then
    create_evaluation_result .MET
      ("IRR of " ++ format_percentage irr_percentage ++ " meets "
        ++ floatRepr MIN_IRR_THRESHOLD ++ "% threshold")
  else if irr_percentage > 0 ∧ irr_percentage < MIN_IRR_THRESHOLD ∧ low_risk_mentioned then
    create_evaluation_result .MET
      ("IRR of " ++ format_percentage irr_percentage ++ " below "
        ++ floatRepr MIN_IRR_THRESHOLD ++ "% but justified as low-risk opportunity")
  else if irr_percentage > 0 ∧ irr_percentage < MIN_IRR_THRESHOLD then
    create_evaluation_result .NOT_MET
      ("IRR of " ++ format_percentage irr_percentage ++ " below "
        ++ floatRepr MIN_IRR_THRESHOLD ++ "% without low-risk justification")
  else
    create_evaluation_result .NOT_MET "Return projections not provided"

/-! ## Criterion 9: Sector Focus (evaluator.py) -/

/-- `_find_target_sector`: the first sector of `TARGET_SECTORS`, in list
order, occurring in the lowercased text; `""` when none does. -/
def _find_target_sector (analysis_text : String) : String :=
  match TARGET_SECTORS.find?
      (fun sector => containsSub (lowerChars analysis_text.toList) sector.toList) with
  | some sector => sector
  | none => ""

def evaluate_sector_focus (analysis_text : String) (met_criteria_count : Int) :
    EvaluationResult :=
  let sector_found := _find_target_sector analysis_text
  let consumer_found := check_keywords_present analysis_text EXCLUDED_SECTORS
  if sector_found ≠ "" then
    create_evaluation_result .MET
      ("Company operates in " ++ pyTitle sector_found ++ " - target sector")
  else if consumer_found then
    create_evaluation_result .NOT_MET
      "Company in consumer or traditional infrastructure sectors"
  else if met_criteria_count ≥ 6 then
    create_evaluation_result .MET
      "Opportunistic - meets other criteria and not in excluded sectors"
  else
    create_evaluation_result .NOT_MET "Sector information not clear"

/-! ## Aggregator (utils/helpers.py) -/

/-- `generate_overall_recommendation`: three-tier mapping on the MET
count.  The `total_count` argument is accepted, as in the source, but
never read. -/
def generate_overall_recommendation (met_count : Int) (total_count : Int) : String :=
  if met_count ≥ 7 then "RECOMMEND for further due diligence"
  else if met_count ≥ 5 then "CONDITIONAL RECOMMEND - address key gaps"
  else "DO NOT RECOMMEND - insufficient criteria met"

/-- Spec-side three-tier mapping, following the spec's §4.4 tier table
(`met_count ≥ 7`, `5 ≤ met_count ≤ 6`, `met_count ≤ 4`), with the tier
wordings as the code actually emits them (ASCII hyphens). -/
def specRecommendationTiers (met_count : Int) : String :=
  if met_count ≥ 7 then "RECOMMEND for further due diligence"
  else if 5 ≤ met_count ∧ met_count ≤ 6 then "CONDITIONAL RECOMMEND - address key gaps"
  else "DO NOT RECOMMEND - insufficient criteria met"

end Screening

namespace Screening

/-! ## Theorems -/

/-- The engine's yield loop agrees with "first parsed match strictly
greater than 1, else 0". -/
theorem firstYieldAboveOne_eq_find (ms : List (List Char)) :
    firstYieldAboveOne ms = (((ms.map parseDecimal).find? fun v => decide (1 < v)).getD 0) := by
  induction ms with
  | nil => rfl
  | cons m ms ih =>
    by_cases h : 1 < parseDecimal m
    · simp [firstYieldAboveOne, List.find?, h]
    · simp [firstYieldAboveOne, List.find?, h, ih]

/-- C1 counterexample: at `met_count = 5` (and likewise `4`) the
aggregator returns the tier wording with an ASCII hyphen, not the
em-dash wording the claim states, so the claimed exact wording fails. -/
theorem recommendation_emdash_counterexample :
    generate_overall_recommendation 5 9 = "CONDITIONAL RECOMMEND - address key gaps"
    ∧ generate_overall_recommendation 5 9 ≠ "CONDITIONAL RECOMMEND — address key gaps"
    ∧ generate_overall_recommendation 4 9 = "DO NOT RECOMMEND - insufficient criteria met"
    ∧ generate_overall_recommendation 4 9 ≠ "DO NOT RECOMMEND — insufficient criteria met" := by
  exact ⟨rfl, by decide, rfl, by decide⟩

/-- C1 (amended): for every integer `met_count` and every `total_count`,
the aggregator's recommendation is exactly the spec's three-tier mapping
(`≥ 7` recommend, `5..6` conditional, `≤ 4` do-not), with the middle and
bottom tiers worded with an ASCII hyphen ("CONDITIONAL RECOMMEND -
address key gaps", "DO NOT RECOMMEND - insufficient criteria met"); the
result depends on `met_count` alone and the total-count argument never
affects it. -/
theorem recommendation_matches_spec_tiers (met_count total_count : Int) :
    generate_overall_recommendation met_count total_count =
      specRecommendationTiers met_count := by
  unfold generate_overall_recommendation specRecommendationTiers
  split_ifs <;> first | rfl | omega

/-- C6: the dividend-yield extractor scans all `<number>%` occurrences of
the original (case-preserved) text in order and returns the first value
strictly greater than 1, or `0.0` when no occurrence exceeds 1; on
"0.5% dividend, yield of 6%" it returns 6.0, not 0.5. -/
theorem yield_extractor_first_above_one :
    (∀ t : String, extract_yield_percentage t =
      (((percentMatches t.toList).map parseDecimal).find? fun v => decide (1 < v)).getD 0)
    ∧ extract_yield_percentage "0.5% dividend, yield of 6%" = 6 :=
  ⟨fun t => firstYieldAboveOne_eq_find (percentMatches t.toList), by decide⟩

/-- C10: the yield extractor is not anchored to dividend context.  On
"pays a dividend; IRR of 20%" the only percentage occurrence is the IRR
figure "20", yet the yield extractor returns 20.0 and the
Geography/Structure dividend branch fires with a MET verdict, although
no dividend yield was stated. -/
theorem yield_extractor_not_dividend_anchored :
    check_keywords_present "pays a dividend; IRR of 20%" ["dividend"] = true
    ∧ percentMatches "pays a dividend; IRR of 20%".toList = [['2', '0']]
    ∧ extract_irr_percentage "pays a dividend; IRR of 20%" = 20
    ∧ extract_yield_percentage "pays a dividend; IRR of 20%" = 20
    ∧ evaluate_geography_structure "pays a dividend; IRR of 20%" =
        create_evaluation_result .MET
          "Dividend-paying investment with yield greater than 4.0%" := by
  refine ⟨by decide, by decide, by decide, by decide, by decide⟩

/-- C3: the Investment Size criterion is MET if and only if the extracted
amount is at least the 5.0 minimum (inclusive); at least 7.9 gives the
preferred-tier explanation, between 5.0 and 7.9 the minimum-tier
explanation, strictly between 0 and 5.0 the below-minimum NOT_MET
verdict, and 0 (amount unspecified) the unspecified NOT_MET verdict. -/
theorem investment_size_spec (t : String) :
    ((evaluate_investment_size t).status = .MET ↔
      MIN_INVESTMENT_SIZE ≤ extract_investment_amount t)
    ∧ (PREFERRED_INVESTMENT_SIZE ≤ extract_investment_amount t →
        evaluate_investment_size t = create_evaluation_result .MET
          ("Investment size " ++ format_currency (extract_investment_amount t)
            ++ " meets preferred threshold with strong preference noted"))
    ∧ (MIN_INVESTMENT_SIZE ≤ extract_investment_amount t →
        extract_investment_amount t < PREFERRED_INVESTMENT_SIZE →
        evaluate_investment_size t = create_evaluation_result .MET
          ("Investment size " ++ format_currency (extract_investment_amount t)
            ++ " meets minimum threshold with note about preference for larger tickets"))
    ∧ (0 < extract_investment_amount t →
        extract_investment_amount t < MIN_INVESTMENT_SIZE →
        evaluate_investment_size t = create_evaluation_result .NOT_MET
          ("Investment size " ++ format_currency (extract_investment_amount t)
            ++ " below $" ++ floatRepr MIN_INVESTMENT_SIZE
            ++ "m minimum - portfolio management concerns about too many small deals"))
    ∧ (extract_investment_amount t = 0 →
        evaluate_investment_size t =
          create_evaluation_result .NOT_MET "Investment size not specified") := by
  have h59 : MIN_INVESTMENT_SIZE ≤ PREFERRED_INVESTMENT_SIZE := by decide
  have hp0 : (0 : Rat) < PREFERRED_INVESTMENT_SIZE := by decide
  have hm0 : (0 : Rat) < MIN_INVESTMENT_SIZE := by decide
  simp only [evaluate_investment_size]
  split_ifs with h1 h2 h3
  · refine ⟨?_, fun _ => rfl, ?_, ?_, ?_⟩
    · simp only [create_evaluation_result]
      simp only [true_iff, iff_true]
      linarith
    · intro _ hb; linarith
    · intro _ hb; linarith
    · intro hz; rw [hz] at h1; linarith
  · refine ⟨?_, ?_, fun _ _ => rfl, ?_, ?_⟩
    · simp only [create_evaluation_result]
      simp only [true_iff, iff_true]
      linarith
    · intro ha; exact absurd ha h1
    · intro _ hb; linarith
    · intro hz; rw [hz] at h2; linarith
  · refine ⟨?_, ?_, ?_, fun _ _ => rfl, ?_⟩
    · simp only [create_evaluation_result]
      constructor
      · intro hc; cases hc
      · intro hc; exact absurd hc h2
    · intro ha; exact absurd (le_trans h59 ha) h2
    · intro ha _; exact absurd ha h2
    · intro hz; rw [hz] at h3; exact absurd h3.1 (lt_irrefl 0)
  · refine ⟨?_, ?_, ?_, ?_, fun _ => rfl⟩
    · simp only [create_evaluation_result]
      constructor
      · intro hc; cases hc
      · intro hc; exact absurd hc h2
    · intro ha; exact absurd (le_trans h59 ha) h2
    · intro ha _; exact absurd ha h2
    · intro ha hb; exact absurd ⟨ha, hb⟩ h3

/-- C3 witness: `$5.0m` is MET (minimum tier), `$7.9m` is MET (preferred
tier), `$4.99m` is NOT_MET (below minimum), and an absent amount is
NOT_MET (unspecified). -/
theorem investment_size_spec_witness :
    (evaluate_investment_size "ticket of $5.0m").status = .MET
    ∧ evaluate_investment_size "ticket of $7.9m" = create_evaluation_result .MET
        ("Investment size " ++ format_currency (extract_investment_amount "ticket of $7.9m")
          ++ " meets preferred threshold with strong preference noted")
    ∧ (evaluate_investment_size "ticket of $4.99m").status = .NOT_MET
    ∧ evaluate_investment_size "no size given" =
        create_evaluation_result .NOT_MET "Investment size not specified" := by
  refine ⟨(investment_size_spec "ticket of $5.0m").1.mpr (by decide),
    (investment_size_spec "ticket of $7.9m").2.1 (by decide), ?_, ?_⟩
  · have h := (investment_size_spec "ticket of $4.99m").2.2.2.1 (by decide) (by decide)
    rw [h]; rfl
  · exact (investment_size_spec "no size given").2.2.2.2 (by decide)

/-- C4: the Return Threshold criterion is MET exactly when the extracted
IRR is at least 15.0 (inclusive), or strictly between 0 and 15.0 with a
low-risk phrase present; strictly between 0 and 15.0 without a low-risk
phrase it is NOT_MET, and an IRR of 0 (no projection extracted) is
NOT_MET as not provided. -/
theorem return_threshold_spec (t : String) :
    ((evaluate_return_threshold t).status = .MET ↔
      (MIN_IRR_THRESHOLD ≤ extract_irr_percentage t ∨
        (0 < extract_irr_percentage t ∧ extract_irr_percentage t < MIN_IRR_THRESHOLD ∧
          _check_low_risk t = true)))
    ∧ (0 < extract_irr_percentage t → extract_irr_percentage t < MIN_IRR_THRESHOLD →
        _check_low_risk t = false → (evaluate_return_threshold t).status = .NOT_MET)
    ∧ (extract_irr_percentage t = 0 →
        evaluate_return_threshold t =
          create_evaluation_result .NOT_MET "Return projections not provided") := by
  have hi0 : (0 : Rat) < MIN_IRR_THRESHOLD := by decide
  simp only [evaluate_return_threshold]
  split_ifs with h1 h2 h3
  · refine ⟨?_, ?_, ?_⟩
    · simp only [create_evaluation_result, true_iff, iff_true]
      exact Or.inl h1
    · intro _ hb _; linarith
    · intro hz; rw [hz] at h1; linarith
  · refine ⟨?_, ?_, ?_⟩
    · simp only [create_evaluation_result, true_iff, iff_true]
      exact Or.inr h2
    · intro _ _ hlr; rw [hlr] at h2; simp at h2
    · intro hz; rw [hz] at h2; exact absurd h2.1 (lt_irrefl 0)
  · refine ⟨?_, ?_, fun hz => by rw [hz] at h3; exact absurd h3.1 (lt_irrefl 0)⟩
    · simp only [create_evaluation_result]
      constructor
      · intro hc; cases hc
      · rintro (ha | hb)
        · exact absurd ha h1
        · exact absurd hb h2
    · intro _ _ _; rfl
  · refine ⟨?_, ?_, fun _ => rfl⟩
    · simp only [create_evaluation_result]
      constructor
      · intro hc; cases hc
      · rintro (ha | hb)
        · exact absurd ha h1
        · exact absurd hb h2
    · intro ha hb _; exact absurd ⟨ha, hb⟩ h3

/-- C4 witness: IRR 15.0 is MET, IRR 14.99 with "low risk" is MET, IRR
14.99 without it is NOT_MET, and a missing projection is NOT_MET. -/
theorem return_threshold_spec_witness :
    (evaluate_return_threshold "IRR of 15.0% projected").status = .MET
    ∧ (evaluate_return_threshold "IRR of 14.99%, a low risk deal").status = .MET
    ∧ (evaluate_return_threshold "IRR of 14.99%").status = .NOT_MET
    ∧ evaluate_return_threshold "no projections" =
        create_evaluation_result .NOT_MET "Return projections not provided" := by
  refine ⟨(return_threshold_spec "IRR of 15.0% projected").1.mpr (Or.inl (by decide)),
    (return_threshold_spec "IRR of 14.99%, a low risk deal").1.mpr
      (Or.inr ⟨by decide, by decide, by decide⟩),
    (return_threshold_spec "IRR of 14.99%").2.1 (by decide) (by decide) (by decide),
    (return_threshold_spec "no projections").2.2 (by decide)⟩

/-- C5: on any text containing "dividend" (case-insensitively) for which
neither the GCC-JV branch nor the KGI co-investment branch of
Geography/Structure holds, the criterion is MET exactly when the
extracted yield is strictly greater than 4.0. -/
theorem geography_dividend_branch (t : String)
    (hd : check_keywords_present t ["dividend"] = true)
    (hg : _check_gcc_jv_opportunity t = false)
    (hk : _check_kgi_opportunity t = false) :
    (evaluate_geography_structure t).status = .MET ↔
      MIN_DIVIDEND_YIELD < extract_yield_percentage t := by
  simp only [evaluate_geography_structure, _check_dividend_opportunity, hd, hg, hk,
    if_true, Bool.false_eq_true, if_false]
  by_cases hy : MIN_DIVIDEND_YIELD < extract_yield_percentage t
  · simp [hy, create_evaluation_result]
  · simp [hy, create_evaluation_result]

/-- C5 witness: a dividend text with yield 4.01 is MET; one with yield
exactly 4.0 is NOT_MET (strict `>`). -/
theorem geography_dividend_branch_witness :
    (evaluate_geography_structure "dividend yield of 4.01%").status = .MET
    ∧ (evaluate_geography_structure "Stock dividend at 4%").status = .NOT_MET := by
  refine ⟨(geography_dividend_branch "dividend yield of 4.01%"
    (by decide) (by decide) (by decide)).mpr (by decide), by decide⟩

/-- C7: the Process Timeline criterion with extracted weeks `w` is MET
exactly when the KGI co-investment signal is present and `w ≥ 3`, or when
`w ≥ 8`; it is NOT_MET as too short when `w` is strictly between 0 and
the applicable threshold, and NOT_MET as absent when `w = 0`. -/
theorem process_timeline_spec (t : String) :
    ((evaluate_process_timeline t).status = .MET ↔
      ((_check_kgi_coinvestment t = true ∧
          MIN_KGI_TIMELINE_WEEKS ≤ extract_timeline_weeks t)
        ∨ MIN_TIMELINE_WEEKS ≤ extract_timeline_weeks t))
    ∧ (0 < extract_timeline_weeks t →
        ¬(_check_kgi_coinvestment t = true ∧
            MIN_KGI_TIMELINE_WEEKS ≤ extract_timeline_weeks t) →
        extract_timeline_weeks t < MIN_TIMELINE_WEEKS →
        evaluate_process_timeline t = create_evaluation_result .NOT_MET
          ("Timeline of " ++ toString (extract_timeline_weeks t)
            ++ " weeks too short - risk of reduced diligence quality"))
    ∧ (extract_timeline_weeks t = 0 →
        evaluate_process_timeline t =
          create_evaluation_result .NOT_MET "Timeline information absent") := by
  simp only [evaluate_process_timeline]
  split_ifs with h1 h2 h3
  · refine ⟨?_, ?_, ?_⟩
    · simp only [create_evaluation_result, true_iff, iff_true]
      exact Or.inl h1
    · intro _ hb _; exact absurd h1 hb
    · intro hz; rw [hz] at h1; exact absurd h1.2 (by decide)
  · refine ⟨?_, ?_, ?_⟩
    · simp only [create_evaluation_result, true_iff, iff_true]
      exact Or.inr h2
    · intro _ _ hc; omega
    · intro hz; rw [hz] at h2; simp [MIN_TIMELINE_WEEKS] at h2
  · refine ⟨?_, fun _ _ _ => rfl, fun hz => absurd (hz ▸ h3) (lt_irrefl 0)⟩
    · simp only [create_evaluation_result]
      constructor
      · intro hc; cases hc
      · rintro (ha | hb)
        · exact absurd ha h1
        · exact absurd hb h2
  · refine ⟨?_, ?_, fun _ => rfl⟩
    · simp only [create_evaluation_result]
      constructor
      · intro hc; cases hc
      · rintro (ha | hb)
        · exact absurd ha h1
        · exact absurd hb h2
    · intro ha _ _; omega

/-- C7 witness: weeks 8 is MET (standard), weeks 7 is NOT_MET, KGI
co-investment with weeks 3 is MET, KGI co-investment with weeks 2 is
NOT_MET, and a missing timeline is NOT_MET as absent. -/
theorem process_timeline_spec_witness :
    (evaluate_process_timeline "timeline of 8 weeks").status = .MET
    ∧ (evaluate_process_timeline "a 7 week process").status = .NOT_MET
    ∧ (evaluate_process_timeline "kgi participation, 3 week close").status = .MET
    ∧ (evaluate_process_timeline "kgi participation, 2 week close").status = .NOT_MET
    ∧ evaluate_process_timeline "no timeline" =
        create_evaluation_result .NOT_MET "Timeline information absent" := by
  refine ⟨(process_timeline_spec "timeline of 8 weeks").1.mpr (Or.inr (by decide)), ?_,
    (process_timeline_spec "kgi participation, 3 week close").1.mpr
      (Or.inl ⟨by decide, by decide⟩), ?_,
    (process_timeline_spec "no timeline").2.2 (by decide)⟩
  · have h := (process_timeline_spec "a 7 week process").2.1 (by decide)
      (by decide) (by decide)
    rw [h]; rfl
  · have h := (process_timeline_spec "kgi participation, 2 week close").2.1 (by decide)
      (by decide) (by decide)
    rw [h]; rfl

/-- C8: the Asset Class Exclusion criterion checks the fund branch first:
any fund-type phrase gives NOT_MET with the fund-exclusion explanation,
even when a direct-investment keyword is also present; with no fund-type
phrase, a direct-investment keyword gives MET and absence of both gives
NOT_MET as unclear. -/
theorem asset_class_exclusion_spec (t : String) :
    (_check_fund_investment t = true →
      evaluate_asset_class_exclusion t = create_evaluation_result .NOT_MET
        "Fund investment identified - excluded due to team bandwidth and 2025 objectives")
    ∧ (_check_fund_investment t = false → _check_direct_investment t = true →
        evaluate_asset_class_exclusion t =
          create_evaluation_result .MET "Direct company investment identified")
    ∧ (_check_fund_investment t = false → _check_direct_investment t = false →
        evaluate_asset_class_exclusion t =
          create_evaluation_result .NOT_MET "Asset class information unclear or absent") := by
  refine ⟨fun hf => ?_, fun hf hd => ?_, fun hf hd => ?_⟩
  · simp [evaluate_asset_class_exclusion, hf]
  · simp [evaluate_asset_class_exclusion, hf, hd]
  · simp [evaluate_asset_class_exclusion, hf, hd]

/-- C8 witness: a text with both a fund-type phrase and "company" is
NOT_MET with the fund-exclusion explanation (fund check wins); without a
fund phrase, "company" gives MET; with neither signal the result is
NOT_MET as unclear. -/
theorem asset_class_exclusion_spec_witness :
    _check_direct_investment "venture fund backing the company" = true
    ∧ evaluate_asset_class_exclusion "venture fund backing the company" =
        create_evaluation_result .NOT_MET
          "Fund investment identified - excluded due to team bandwidth and 2025 objectives"
    ∧ evaluate_asset_class_exclusion "the company" =
        create_evaluation_result .MET "Direct company investment identified"
    ∧ evaluate_asset_class_exclusion "nothing here" =
        create_evaluation_result .NOT_MET "Asset class information unclear or absent" := by
  refine ⟨by decide,
    (asset_class_exclusion_spec "venture fund backing the company").1 (by decide),
    (asset_class_exclusion_spec "the company").2.1 (by decide) (by decide),
    (asset_class_exclusion_spec "nothing here").2.2 (by decide) (by decide)⟩

/-- C9: the Fee Terms criterion is MET exactly when an explicit no-fee
phrase is present; "management fee" without a no-fee phrase gives NOT_MET
as fees present, and no fee information at all gives NOT_MET as missing
(absence counts against).  The evaluator is a total function, so no input
raises an exception. -/
theorem fee_terms_spec (t : String) :
    ((evaluate_fee_terms t).status = .MET ↔ _check_no_management_fees t = true)
    ∧ (_check_no_management_fees t = true →
        evaluate_fee_terms t = create_evaluation_result .MET
          "No direct management fees that would impact KV P&L")
    ∧ (_check_no_management_fees t = false →
        check_keywords_present t ["management fee"] = true →
        evaluate_fee_terms t = create_evaluation_result .NOT_MET
          "Management fees present that would hit KV P&L")
    ∧ (_check_no_management_fees t = false →
        check_keywords_present t ["management fee"] = false →
        evaluate_fee_terms t = create_evaluation_result .NOT_MET
          "Fee information not mentioned - missing information counts as red") := by
  cases hnf : _check_no_management_fees t <;>
    cases hmf : check_keywords_present t ["management fee"] <;>
      simp [evaluate_fee_terms, _check_management_fees_present, hnf, hmf,
        create_evaluation_result]

/-- C9 witness: an explicit no-fee phrase is MET; "management fee"
without it is NOT_MET as fees present; no fee wording at all is NOT_MET
as missing information. -/
theorem fee_terms_spec_witness :
    (evaluate_fee_terms "there is no management fee").status = .MET
    ∧ evaluate_fee_terms "a 2% management fee applies" =
        create_evaluation_result .NOT_MET "Management fees present that would hit KV P&L"
    ∧ evaluate_fee_terms "nothing about fees" =
        create_evaluation_result .NOT_MET
          "Fee information not mentioned - missing information counts as red" := by
  refine ⟨(fee_terms_spec "there is no management fee").1.mpr (by decide),
    (fee_terms_spec "a 2% management fee applies").2.2.1 (by decide) (by decide),
    (fee_terms_spec "nothing about fees").2.2.2 (by decide) (by decide)⟩

/-- C2: Sector Focus returns MET naming the first target sector in fixed
list order when one occurs in the lowercased text; otherwise NOT_MET when
an excluded-sector phrase occurs; otherwise MET ("Opportunistic") exactly
when the MET count over the other eight criteria is at least 6, and
NOT_MET ("Sector information not clear") when it is at most 5. -/
theorem sector_focus_spec (t : String) (n : Int) :
    (∀ s, TARGET_SECTORS.find?
        (fun sector => containsSub (lowerChars t.toList) sector.toList) = some s →
      evaluate_sector_focus t n = create_evaluation_result .MET
        ("Company operates in " ++ pyTitle s ++ " - target sector"))
    ∧ (TARGET_SECTORS.find?
          (fun sector => containsSub (lowerChars t.toList) sector.toList) = none →
        check_keywords_present t EXCLUDED_SECTORS = true →
        evaluate_sector_focus t n = create_evaluation_result .NOT_MET
          "Company in consumer or traditional infrastructure sectors")
    ∧ (TARGET_SECTORS.find?
          (fun sector => containsSub (lowerChars t.toList) sector.toList) = none →
        check_keywords_present t EXCLUDED_SECTORS = false →
        ((evaluate_sector_focus t n).status = .MET ↔ 6 ≤ n)
        ∧ (6 ≤ n → evaluate_sector_focus t n = create_evaluation_result .MET
            "Opportunistic - meets other criteria and not in excluded sectors")
        ∧ (n ≤ 5 → evaluate_sector_focus t n = create_evaluation_result .NOT_MET
            "Sector information not clear")) := by
  refine ⟨fun s hf => ?_, fun hf he => ?_, fun hf he => ?_⟩
  · have hft : _find_target_sector t = s := by
      unfold _find_target_sector; rw [hf]
    have hs : s ∈ TARGET_SECTORS := List.mem_of_find?_eq_some hf
    have hne : s ≠ "" := by
      simp only [TARGET_SECTORS, List.mem_cons, List.not_mem_nil, or_false] at hs
      rcases hs with rfl | rfl | rfl | rfl | rfl <;> decide
    simp [evaluate_sector_focus, hft, hne]
  · have hfe : _find_target_sector t = "" := by
      unfold _find_target_sector; rw [hf]
    simp [evaluate_sector_focus, hfe, he]
  · have hfe : _find_target_sector t = "" := by
      unfold _find_target_sector; rw [hf]
    refine ⟨?_, fun h6 => ?_, fun h5 => ?_⟩
    · by_cases h6 : 6 ≤ n
      · simp [evaluate_sector_focus, hfe, he, h6, create_evaluation_result]
      · simp [evaluate_sector_focus, hfe, he, h6, create_evaluation_result]
    · simp [evaluate_sector_focus, hfe, he, h6]
    · have h6 : ¬(6 ≤ n) := by omega
      simp [evaluate_sector_focus, hfe, he, h6]

/-- C2 witness: "a healthcare company" is MET naming Healthcare; a
consumer text is NOT_MET; a sector-free text is MET opportunistically at
count 6 and NOT_MET ("Sector information not clear") at count 5. -/
theorem sector_focus_spec_witness :
    evaluate_sector_focus "a healthcare company" 0 =
      create_evaluation_result .MET "Company operates in Healthcare - target sector"
    ∧ evaluate_sector_focus "consumer brand" 9 =
      create_evaluation_result .NOT_MET
        "Company in consumer or traditional infrastructure sectors"
    ∧ evaluate_sector_focus "widgets" 6 =
      create_evaluation_result .MET
        "Opportunistic - meets other criteria and not in excluded sectors"
    ∧ evaluate_sector_focus "widgets" 5 =
      create_evaluation_result .NOT_MET "Sector information not clear" := by
  refine ⟨?_, ?_, ?_, ?_⟩
  · have h := (sector_focus_spec "a healthcare company" 0).1 "healthcare" (by decide)
    rw [(by decide : "Company operates in " ++ pyTitle "healthcare" ++ " - target sector" =
      "Company operates in Healthcare - target sector")] at h
    exact h
  · exact (sector_focus_spec "consumer brand" 9).2.1 (by decide) (by decide)
  · exact ((sector_focus_spec "widgets" 6).2.2 (by decide) (by decide)).2.1 (by omega)
  · exact ((sector_focus_spec "widgets" 5).2.2 (by decide) (by decide)).2.2 (by omega)

end Screening
